import Mathlib

/-!
Verification development for the soil-health scraping and consolidation
pipeline (sources: get_raw_data.py, consolidate_data.py).

The Python sources are shallowly embedded: pandas DataFrames become lists of
rows over an explicit cell type, the Selenium-driven traversal becomes a pure
function over an environment describing the outcome of every browser
interaction, and exceptions become explicit outcome constructors.  String
operations from Python (strip, replace, lower, isalnum) are re-implemented
structurally over character lists so that every definition evaluates inside
the kernel.
-/

/-- Cell of a pandas DataFrame: either missing (NaN), a number, or a string.
Numbers are modelled as integers. -/
inductive Cell where
  | nan : Cell
  | num : Int → Cell
  | str : String → Cell
deriving DecidableEq, Repr

/-- A pandas DataFrame: a list of column names and a list of rows, each row a
list of cells aligned positionally with the columns. -/
structure DataFrame where
  cols : List String
  rows : List (List Cell)
deriving DecidableEq, Repr

/-- Python `df.empty`: true when the frame has no rows. -/
def DataFrame.isEmptyDf (df : DataFrame) : Bool :=
  df.rows.isEmpty

/-- The empty DataFrame, `pd.DataFrame()`. -/
def emptyDf : DataFrame := ⟨[], []⟩

/-- Python whitespace characters recognised by `str.strip()` (the ones that
occur in this data). -/
def isPySpace (c : Char) : Bool :=
  c = ' ' || c = '\t' || c = '\n' || c = '\r'

/-- Python `str.strip()` on a character list: drop leading and trailing
whitespace. -/
def pyStripChars (l : List Char) : List Char :=
  ((l.dropWhile isPySpace).reverse.dropWhile isPySpace).reverse

/-- Python `str.strip()`. -/
def pyStrip (s : String) : String :=
  String.mk (pyStripChars s.data)

/-- Parse a run of decimal digits as a natural number; none if empty or a
non-digit occurs.  Accumulator-based structural recursion. -/
def parseDigits : List Char → Nat → Option Nat
  | [], acc => some acc
  | c :: rest, acc =>
      if c.isDigit then parseDigits rest (acc * 10 + (c.toNat - '0'.toNat))
      else none

/-- Parse an optionally signed integer literal, as `int(...)` / numeric
coercion does for integer-valued text. -/
def parseIntChars : List Char → Option Int
  | [] => none
  | '-' :: rest =>
      if rest.isEmpty then none
      else (parseDigits rest 0).map (fun n => -(n : Int))
  | '+' :: rest =>
      if rest.isEmpty then none
      else (parseDigits rest 0).map (fun n => (n : Int))
  | l => (parseDigits l 0).map (fun n => (n : Int))

/-- Parse an optionally signed integer from a string. -/
def parseIntStr (s : String) : Option Int :=
  parseIntChars s.data

-- ============================================================
-- Dropdown Accessor (get_raw_data.py)
-- ============================================================

/-- A raw `<option>` element of a dropdown: its value attribute and its text.
-/
structure RawOption where
  value : String
  text : String
deriving DecidableEq, Repr

/-- The option filter of get_dropdown_options (get_raw_data.py lines 66-68):
keep options whose value is neither "0" nor "select" and whose stripped text
is not "Select"; each kept option becomes the pair (value, stripped text). -/
def filterOptions (opts : List RawOption) : List (String × String) :=
  (opts.filter (fun o =>
      decide (o.value ≠ "0" ∧ o.value ≠ "select" ∧ pyStrip o.text ≠ "Select"))).map
    (fun o => (o.value, pyStrip o.text))

/-- Outcome of one attempt of get_dropdown_options: the wait raises
StaleElementReferenceException, raises NoSuchElement/Timeout, or yields the
raw option list of the located element. -/
inductive DropdownAttempt where
  | staleEx : DropdownAttempt
  | notFound : DropdownAttempt
  | found : List RawOption → DropdownAttempt
deriving DecidableEq, Repr

/-- get_dropdown_options (get_raw_data.py lines 53-77) run against an oracle
giving the outcome of each successive attempt, with explicit fuel counting
attempts.  A stale reference sleeps and retries the whole operation (the
recursive call at line 77); not-found/timeout is caught and returns the empty
list; success returns the filtered options.  none means the function has not
returned within the given number of attempts. -/
def get_dropdown_options (oracle : Nat → DropdownAttempt) :
    Nat → Nat → Option (List (String × String))
  | 0, _ => none
  | fuel + 1, k =>
      match oracle k with
      | DropdownAttempt.staleEx => get_dropdown_options oracle fuel (k + 1)
      | DropdownAttempt.notFound => some []
      | DropdownAttempt.found opts => some (filterOptions opts)

/-- Outcome of one attempt of select_dropdown_option: stale reference, a
caught failure (not found / timeout, returning False), or success (True). -/
inductive SelectAttempt where
  | staleEx : SelectAttempt
  | failSel : SelectAttempt
  | okSel : SelectAttempt
deriving DecidableEq, Repr

/-- select_dropdown_option (get_raw_data.py lines 79-100) run against an
oracle of attempt outcomes with explicit fuel: stale retries the whole
operation (line 100); other outcomes return a boolean. -/
def select_dropdown_option (oracle : Nat → SelectAttempt) :
    Nat → Nat → Option Bool
  | 0, _ => none
  | fuel + 1, k =>
      match oracle k with
      | SelectAttempt.staleEx => select_dropdown_option oracle fuel (k + 1)
      | SelectAttempt.failSel => some false
      | SelectAttempt.okSel => some true

/-- The dropdown read terminates on some fuel (i.e. the retry recursion
reaches a non-stale attempt). -/
def DropdownTerminates (oracle : Nat → DropdownAttempt) : Prop :=
  ∃ fuel, (get_dropdown_options oracle fuel 0).isSome

/-- The selection terminates on some fuel. -/
def SelectTerminates (oracle : Nat → SelectAttempt) : Prop :=
  ∃ fuel, (select_dropdown_option oracle fuel 0).isSome

-- ============================================================
-- Table Extractor (get_raw_data.py get_table_data)
-- ============================================================

/-- Outcome of locating and reading a table container: the visibility wait
times out / the element is missing, the read or parse raises, or the table is
present with a header and data rows. -/
inductive TableFetch where
  | absent : TableFetch
  | failure : TableFetch
  | present : List String → List (List Cell) → TableFetch
deriving DecidableEq, Repr

/-- get_table_data (get_raw_data.py lines 102-123): not-found/timeout and any
other exception are caught and yield None; a present table is parsed into a
DataFrame (header and data rows). -/
def get_table_data : TableFetch → Option DataFrame
  | TableFetch.absent => none
  | TableFetch.failure => none
  | TableFetch.present header rows => some ⟨header, rows⟩

-- ============================================================
-- Persistence Sink (get_raw_data.py save_data) and reload
-- ============================================================

/-- save_data's path sanitization (get_raw_data.py lines 131-133): every
non-alphanumeric character of a name becomes an underscore.  Python's
per-character join is a character map. -/
def sanitizeName (s : String) : String :=
  String.mk (s.data.map (fun c => if c.isAlphanum then c else '_'))

/-- The consolidator's reversal of the safe name (consolidate_data.py lines
49, 58): every underscore becomes a space.  Python str.replace with a
one-character pattern and one-character replacement substitutes each
occurrence, i.e. maps the characters. -/
def unsanitizeName (s : String) : String :=
  String.mk (s.data.map (fun c => if c = '_' then ' ' else c))

/-- How a cell is rendered by df.to_csv: missing cells become the empty
field, numbers their decimal notation, strings their own text (CSV quoting
is lossless framing and is left implicit). -/
def renderCell : Cell → String
  | Cell.nan => ""
  | Cell.num n => toString n
  | Cell.str s => s

/-- Default NA tokens of pd.read_csv that occur in practice: an empty field
and the usual spellings of missing data. -/
def naTokens : List String := ["NA", "N/A", "NaN", "nan", "null", "NULL"]

/-- How pd.read_csv interprets one CSV field: empty fields and NA tokens
become missing, integer-looking text becomes a number, anything else stays a
string. -/
def inferCell (s : String) : Cell :=
  if s = "" then Cell.nan
  else if s ∈ naTokens then Cell.nan
  else
    match parseIntStr s with
    | some n => Cell.num n
    | none => Cell.str s

/-- save_data's serialization (get_raw_data.py line 145, df.to_csv with
index=False): a header line followed by one line of rendered cells per row.
-/
def save_data (df : DataFrame) : List (List String) :=
  df.cols :: df.rows.map (fun r => r.map renderCell)

/-- pd.read_csv on such a file (consolidate_data.py lines 86, 95): the first
line is the header, each further line a row of inferred cells. -/
def load_csv : List (List String) → Option DataFrame
  | [] => none
  | header :: rest => some ⟨header, rest.map (fun r => r.map inferCell)⟩

-- ============================================================
-- Consolidator merge (consolidate_data.py lines 102-125)
-- ============================================================

/-- Replace every non-overlapping occurrence of a pattern in a character
list, scanning left to right (Python str.replace); fuel bounds the number of
characters consumed, one per step. -/
def replaceAllAux (pat rep : List Char) : Nat → List Char → List Char
  | 0, l => l
  | _ + 1, [] => []
  | fuel + 1, c :: rest =>
      if pat ≠ [] ∧ pat.isPrefixOf (c :: rest) then
        rep ++ replaceAllAux pat rep fuel ((c :: rest).drop pat.length)
      else
        c :: replaceAllAux pat rep fuel rest

/-- Python str.replace(pat, rep) for a non-empty pattern. -/
def replaceAllStr (s pat rep : String) : String :=
  String.mk (replaceAllAux pat.data rep.data s.data.length s.data)

/-- Python `needle in hay` for strings: some suffix of the haystack starts
with the needle. -/
def strContainsSub (hay needle : String) : Bool :=
  decide (needle.data <:+: hay.data)

/-- Python str.lower (per character). -/
def pyLower (s : String) : String :=
  String.mk (s.data.map Char.toLower)

/-- The merge-key detector (consolidate_data.py lines 105-106 and the [0]
selection at 110-111): the first column whose lowercased name contains
"village" or "gram". -/
def findCommonCol (cols : List String) : Option String :=
  cols.find? (fun c =>
    strContainsSub (pyLower c) "village" || strContainsSub (pyLower c) "gram")

/-- df.rename(columns={old: new}): every column equal to old becomes new. -/
def renameCol (df : DataFrame) (old new : String) : DataFrame :=
  ⟨df.cols.map (fun c => if c = old then new else c), df.rows⟩

/-- The common key name both frames are renamed to (consolidate_data.py lines
110-111). -/
def mergeKey : String := "Village_GramPanchayath"

/-- Index of the first column with the given name. -/
def colIdx (df : DataFrame) (name : String) : Option Nat :=
  df.cols.indexOf? name

/-- The cell of a row at a column index, missing when out of range. -/
def cellAt (r : List Cell) (i : Nat) : Cell :=
  (r.get? i).getD Cell.nan

/-- Remove the element at an index from a list. -/
def dropIdx {α : Type} (l : List α) (i : Nat) : List α :=
  l.take i ++ l.drop (i + 1)

/-- Column names of pd.merge(left, right, on=key, how='outer',
suffixes=('_macro','_micro')): the left columns in order, the key kept as is
and other names shared with the right suffixed '_macro'; then the right
columns other than the key, those shared with the left suffixed '_micro'. -/
def mergedCols (left right : DataFrame) : List String :=
  left.cols.map (fun c =>
      if c = mergeKey then c
      else if c ∈ right.cols then c ++ "_macro" else c) ++
  (right.cols.filter (fun c => c ≠ mergeKey)).map (fun c =>
      if c ∈ left.cols then c ++ "_micro" else c)

/-- Rows of the outer merge on the key: each left row is joined with every
right row sharing its key value (the right key cell removed), or padded with
missing right cells when no right row matches; right rows whose key matches
no left row are appended with missing left cells, carrying their key in the
key column's (left) position. -/
def mergedRows (left right : DataFrame) (ki kj : Nat) : List (List Cell) :=
  (left.rows.flatMap (fun r1 =>
    match right.rows.filter (fun r2 => cellAt r2 kj = cellAt r1 ki) with
    | [] => [r1 ++ List.replicate (right.cols.length - 1) Cell.nan]
    | ms => ms.map (fun r2 => r1 ++ dropIdx r2 kj))) ++
  ((right.rows.filter (fun r2 =>
      left.rows.all (fun r1 => cellAt r1 ki ≠ cellAt r2 kj))).map (fun r2 =>
    (List.range left.cols.length).map (fun i =>
        if i = ki then cellAt r2 kj else Cell.nan) ++ dropIdx r2 kj))

/-- pd.merge(left, right, on=mergeKey, how='outer',
suffixes=('_macro','_micro')) (consolidate_data.py line 116).  Row order of
the pandas outer merge is not fixed by this model; every theorem below about
the merge is insensitive to row order. -/
def outerMerge (left right : DataFrame) : DataFrame :=
  match colIdx left mergeKey, colIdx right mergeKey with
  | some ki, some kj => ⟨mergedCols left right, mergedRows left right ki kj⟩
  | _, _ => ⟨mergedCols left right, []⟩

/-- pd.concat([left, right], axis=1) on default integer indices
(consolidate_data.py lines 121 and 125): columns side by side, rows aligned
by position, the shorter side padded with missing cells. -/
def concatCols (left right : DataFrame) : DataFrame :=
  ⟨left.cols ++ right.cols,
   (List.range (max left.rows.length right.rows.length)).map (fun i =>
     ((left.rows.get? i).getD (List.replicate left.cols.length Cell.nan)) ++
     ((right.rows.get? i).getD (List.replicate right.cols.length Cell.nan)))⟩

/-- The merge step for one block with both frames non-empty
(consolidate_data.py lines 102-125).  joinOk stands for pd.merge completing
without raising: when it raises, the except branch falls back to side-by-side
concatenation; when no common village/gram column is detectable in both
frames the else branch concatenates as well. -/
def mergeBlock (joinOk : Bool) (dfMacro dfMicro : DataFrame) : DataFrame :=
  match findCommonCol dfMacro.cols, findCommonCol dfMicro.cols with
  | some cm, some cu =>
      let left := renameCol dfMacro cm mergeKey
      let right := renameCol dfMicro cu mergeKey
      if joinOk then outerMerge left right
      else concatCols left right
  | _, _ => concatCols dfMacro dfMicro

-- ============================================================
-- Consolidator walk (consolidate_data.py consolidate_data)
-- ============================================================

/-- A file of the raw store: its name and its CSV content (a header line and
data lines). -/
structure RawFile where
  name : String
  content : List (List String)
deriving Repr

/-- A district directory of the raw store: its directory name and files. -/
structure DistrictDir where
  dname : String
  files : List RawFile
deriving Repr

/-- A state directory of the raw store. -/
structure StateDir where
  sname : String
  districts : List DistrictDir
deriving Repr

/-- A year directory of the raw store. -/
structure YearDir where
  yname : String
  states : List StateDir
deriving Repr

/-- The persisted raw store: the year directories of data/raw. -/
abbrev RawStore := List YearDir

/-- Python str.endswith. -/
def strEndsWith (s pat : String) : Bool :=
  pat.data.isSuffixOf s.data

/-- The file scan of one district directory (consolidate_data.py lines
61-74): a single fold over the listing keeping one macro file slot, one
micro file slot and one block name; each matching file overwrites the slot
and the block name, so only the last macro file and the last micro file of
the listing survive. -/
def scanFiles (files : List RawFile) :
    Option RawFile × Option RawFile × String :=
  files.foldl (fun acc f =>
    if strEndsWith f.name "_macro.csv" then
      (some f, acc.2.1, unsanitizeName (replaceAllStr f.name "_macro.csv" ""))
    else if strEndsWith f.name "_micro.csv" then
      (acc.1, some f, unsanitizeName (replaceAllStr f.name "_micro.csv" ""))
    else acc) (none, none, "")

/-- Load one raw file as the code does (consolidate_data.py lines 84-99):
pd.read_csv, any failure degrading to the empty frame. -/
def loadRawFile : Option RawFile → DataFrame
  | none => emptyDf
  | some f => (load_csv f.content).getD emptyDf

/-- pandas column assignment df[name] = v with a scalar: overwrite every
column labelled name in place, else append a new column of that value. -/
def setCol (df : DataFrame) (name : String) (v : Cell) : DataFrame :=
  if df.cols.contains name then
    ⟨df.cols,
     df.rows.map (fun r => (List.range df.cols.length).map (fun i =>
       if df.cols.get? i = some name then v else cellAt r i))⟩
  else
    ⟨df.cols ++ [name], df.rows.map (fun r => r ++ [v])⟩

/-- The four identifier columns added to a merged block frame
(consolidate_data.py lines 138-141). -/
def addIdCols (df : DataFrame) (year state district block : String) :
    DataFrame :=
  setCol (setCol (setCol (setCol df "Year" (Cell.str year))
    "State" (Cell.str state)) "District" (Cell.str district))
    "Block" (Cell.str block)

/-- Processing of one district directory (consolidate_data.py lines 61-143):
scan for the macro and micro file slots, load them, merge by availability,
and when the merged frame is non-empty tag it with the year directory name,
the de-underscored state and district directory names, and the stripped
block name; none when the district contributes nothing. -/
def consolidateDistrict (ydir sdir ddir : String) (files : List RawFile) :
    Option DataFrame :=
  let scanned := scanFiles files
  if scanned.1.isNone ∧ scanned.2.1.isNone then none
  else
    let dfMacro := loadRawFile scanned.1
    let dfMicro := loadRawFile scanned.2.1
    let merged :=
      if ¬dfMacro.isEmptyDf ∧ ¬dfMicro.isEmptyDf then
        mergeBlock true dfMacro dfMicro
      else if ¬dfMacro.isEmptyDf then dfMacro
      else if ¬dfMicro.isEmptyDf then dfMicro
      else emptyDf
    if merged.isEmptyDf then none
    else
      some (addIdCols merged ydir (unsanitizeName sdir)
        (unsanitizeName ddir) (pyStrip scanned.2.2))

/-- The frames collected by the hierarchy walk (consolidate_data.py lines
36-143): one optional frame per district directory. -/
def collectFrames (store : RawStore) : List DataFrame :=
  store.flatMap (fun yd =>
    yd.states.flatMap (fun sd =>
      sd.districts.filterMap (fun dd =>
        consolidateDistrict yd.yname sd.sname dd.dname dd.files)))

/-- Column order of pd.concat over frames with differing columns: the
columns of the first frame, then unseen columns of later frames in order of
appearance. -/
def unionCols (frames : List DataFrame) : List String :=
  frames.foldl (fun acc df =>
    acc ++ df.cols.filter (fun c => !acc.contains c)) []

/-- Reindex one row of a frame to a target column list, missing columns
becoming missing cells. -/
def alignRow (cols : List String) (df : DataFrame) (r : List Cell) :
    List Cell :=
  cols.map (fun c =>
    match colIdx df c with
    | some i => cellAt r i
    | none => Cell.nan)

/-- pd.concat(all_data_frames, ignore_index=True) (consolidate_data.py line
150): rows of every frame stacked, aligned to the union of the columns. -/
def concatAll (frames : List DataFrame) : DataFrame :=
  let cols := unionCols frames
  ⟨cols, frames.flatMap (fun df => df.rows.map (alignRow cols df))⟩

/-- The cells of one column. -/
def colCells (df : DataFrame) (i : Nat) : List Cell :=
  df.rows.map (fun r => cellAt r i)

/-- A column has pandas dtype float64/int64 exactly when no cell holds a
string (missing cells and numbers keep a numeric dtype). -/
def isNumericCol (cells : List Cell) : Bool :=
  cells.all (fun c =>
    match c with
    | Cell.str _ => false
    | _ => true)

/-- The missing-value pass (consolidate_data.py lines 158-164): per column,
missing cells of a numeric column become 0, those of any other column the
string Unknown. -/
def fillMissing (df : DataFrame) : DataFrame :=
  ⟨df.cols,
   df.rows.map (fun r => (List.range df.cols.length).map (fun i =>
     match cellAt r i with
     | Cell.nan =>
         if isNumericCol (colCells df i) then Cell.num 0
         else Cell.str "Unknown"
     | c => c))⟩

/-- One character's contribution to the column-name normalization chain of
consolidate_data.py lines 172-176: spaces and hyphens become underscores,
dots vanish, the percent sign is spelled out, the slash becomes _per_,
anything else stays.  None of the replacement texts contains a character
matched by a later replace of the chain, so the sequential replaces act
independently per character. -/
def stdRep (c : Char) : List Char :=
  if c = ' ' ∨ c = '-' then ['_']
  else if c = '.' then []
  else if c = '%' then "percent".data
  else if c = '/' then "_per_".data
  else [c]

/-- The standardized form of one column name (consolidate_data.py lines
172-176): strip, lowercase, apply the replacement chain, keep only
alphanumerics and underscores. -/
def stdName (s : String) : String :=
  String.mk ((((pyStripChars s.data).map Char.toLower).flatMap stdRep).filter
    (fun c => c.isAlphanum || c = '_'))

/-- The collision loop of consolidate_data.py lines 178-184: append _1, _2,
... until the candidate is unused.  The fuel exceeds the number of names
already assigned, so a free candidate is always reached. -/
def freshenAux (c : String) (seen : List String) : Nat → Nat → String
  | 0, _ => c
  | fuel + 1, k =>
      let cand := c ++ "_" ++ toString k
      if seen.contains cand then freshenAux c seen fuel (k + 1) else cand

/-- Standardize a list of column names left to right, disambiguating
collisions against the names already assigned (consolidate_data.py lines
169-185). -/
def stdColumns (seen : List String) : List String → List String
  | [] => []
  | c :: cs =>
      let c1 := stdName c
      let c2 :=
        if seen.contains c1 then freshenAux c1 seen (seen.length + 1) 1
        else c1
      c2 :: stdColumns (seen ++ [c2]) cs

/-- The column-rename pass (consolidate_data.py line 186). -/
def renamePass (df : DataFrame) : DataFrame :=
  ⟨stdColumns [] df.cols, df.rows⟩

/-- The identifier columns excluded from numeric coercion
(consolidate_data.py line 192). -/
def id_cols : List String :=
  ["year", "state", "district", "block", "village_grampanchayath",
   "village", "gram_panchayath"]

/-- pd.to_numeric(-, errors='coerce') on one cell: numbers stay, numeric
text becomes its number, other text and missing cells become missing. -/
def coerceCell : Cell → Cell
  | Cell.num n => Cell.num n
  | Cell.nan => Cell.nan
  | Cell.str s =>
      match parseIntStr s with
      | some n => Cell.num n
      | none => Cell.nan

/-- The dtype pass (consolidate_data.py lines 193-200): every column outside
the identifier allowlist is coerced to numeric and its missing cells (also
those introduced by the coercion) are filled with 0.  The source guards the
fill with an any-null check, which is extensionally the same as filling
every missing cell. -/
def coercePass (df : DataFrame) : DataFrame :=
  ⟨df.cols,
   df.rows.map (fun r => (List.range df.cols.length).map (fun i =>
     if id_cols.contains ((df.cols.get? i).getD "") then cellAt r i
     else
       match coerceCell (cellAt r i) with
       | Cell.nan => Cell.num 0
       | c => c))⟩

/-- consolidate_data (consolidate_data.py lines 26-216) as a function from
the raw store to the final consolidated frame: collect the per-district
frames, stop with no output when none were collected, otherwise concatenate
and run the three cleanup passes. -/
def consolidate_data (store : RawStore) : Option DataFrame :=
  let frames := collectFrames store
  if frames.isEmpty then none
  else some (coercePass (renamePass (fillMissing (concatAll frames))))

-- ============================================================
-- Traversal Engine (get_raw_data.py scrape_soil_data)
-- ============================================================

/-- Environment of one run of scrape_soil_data: the outcome of every browser
interaction, indexed by the position of the year, state, district and block
option being processed.  Option lists are abstracted to their lengths; a
select field is the boolean result of select_dropdown_option (whose stale
retries are modelled separately); a wait field tells whether the
corresponding WebDriverWait succeeds within its bound. -/
structure ScrapeEnv where
  setupOk : Bool
  nYears : Nat
  yearSel : Nat → Bool
  nStates : Nat → Nat
  stateSel : Nat → Nat → Bool
  distWait : Nat → Nat → Bool
  nDists : Nat → Nat → Nat
  distSel : Nat → Nat → Nat → Bool
  blockWait : Nat → Nat → Nat → Bool
  nBlocks : Nat → Nat → Nat → Nat
  blockSel : Nat → Nat → Nat → Nat → Bool
  blockCrash : Nat → Nat → Nat → Nat → Bool
  macroView : Nat → Nat → Nat → Nat → Bool
  microTab : Nat → Nat → Nat → Nat → Bool
  microView : Nat → Nat → Nat → Nat → Bool

/-- Events of a run: reaching an option of each level, and calling
get_table_data for a nutrient kind of a block. -/
inductive Ev where
  | year : Nat → Ev
  | state : Nat → Nat → Ev
  | district : Nat → Nat → Nat → Ev
  | block : Nat → Nat → Nat → Nat → Ev
  | macroExtract : Nat → Nat → Nat → Nat → Ev
  | microExtract : Nat → Nat → Nat → Nat → Ev
deriving DecidableEq, Repr

/-- Why a run ends before exhausting the year options: WebDriver setup
failure (line 51 exits the process), no year options (line 172 returns), or
an exception raised by an unguarded WebDriverWait inside the loops reaching
the outer handler at line 307. -/
inductive Abort where
  | setup : Abort
  | noYears : Abort
  | waitTimeout : Abort
deriving DecidableEq, Repr

/-- The body of the block loop (get_raw_data.py lines 228-305) for one block
option.  A failed block selection skips the block (line 233); any unhandled
exception inside the body is caught at line 303 and skips the rest of the
body.  Macro processing (lines 238-258) catches its own failures, so the
micro side is reached regardless; its table extraction runs only when its
Table View button becomes clickable.  Micro processing (lines 262-289) is
one guarded region: when the tab click fails, neither its Table View action
nor its extraction runs.  The tab switch-back (lines 293-301) swallows its
own failures and emits nothing. -/
def runBlock (env : ScrapeEnv) (y s d b : Nat) : List Ev :=
  Ev.block y s d b ::
  (if env.blockSel y s d b then
    (if env.blockCrash y s d b then []
     else
       (if env.macroView y s d b then [Ev.macroExtract y s d b] else []) ++
       (if env.microTab y s d b then
          (if env.microView y s d b then [Ev.microExtract y s d b] else [])
        else []))
   else [])

/-- The block loop over the remaining block indices. -/
def runBlocks (env : ScrapeEnv) (y s d : Nat) : List Nat → List Ev
  | [] => []
  | b :: bs => runBlock env y s d b ++ runBlocks env y s d bs

/-- The body of the district loop (get_raw_data.py lines 209-305) for one
district option: a failed selection skips the district (line 213); the
ddlBlock clickability wait (lines 216-218) runs outside every handler of the
loops, so its timeout propagates and ends the run; an empty block
enumeration skips the district (line 225). -/
def runDistrict (env : ScrapeEnv) (y s d : Nat) : List Ev × Option Abort :=
  if env.distSel y s d then
    if env.blockWait y s d then
      (Ev.district y s d :: runBlocks env y s d (List.range (env.nBlocks y s d)),
       none)
    else ([Ev.district y s d], some Abort.waitTimeout)
  else ([Ev.district y s d], none)

/-- The district loop over the remaining district indices; an abort ends the
loop early. -/
def runDistricts (env : ScrapeEnv) (y s : Nat) : List Nat → List Ev × Option Abort
  | [] => ([], none)
  | d :: ds =>
      match runDistrict env y s d with
      | (evs, some r) => (evs, some r)
      | (evs, none) =>
          match runDistricts env y s ds with
          | (evs2, r2) => (evs ++ evs2, r2)

/-- The body of the state loop (get_raw_data.py lines 190-305) for one state
option: a failed selection skips the state (line 194); the ddlDistrict
clickability wait (lines 197-199) runs outside every handler, so its timeout
ends the run; an empty district enumeration skips the state (line 206). -/
def runState (env : ScrapeEnv) (y s : Nat) : List Ev × Option Abort :=
  if env.stateSel y s then
    if env.distWait y s then
      match runDistricts env y s (List.range (env.nDists y s)) with
      | (evs, r) => (Ev.state y s :: evs, r)
    else ([Ev.state y s], some Abort.waitTimeout)
  else ([Ev.state y s], none)

/-- The state loop over the remaining state indices. -/
def runStates (env : ScrapeEnv) (y : Nat) : List Nat → List Ev × Option Abort
  | [] => ([], none)
  | s :: ss =>
      match runState env y s with
      | (evs, some r) => (evs, some r)
      | (evs, none) =>
          match runStates env y ss with
          | (evs2, r2) => (evs ++ evs2, r2)

/-- The body of the year loop (get_raw_data.py lines 175-305) for one year
option: a failed selection skips the year (line 179); an empty state
enumeration skips the year (line 187). -/
def runYear (env : ScrapeEnv) (y : Nat) : List Ev × Option Abort :=
  if env.yearSel y then
    match runStates env y (List.range (env.nStates y)) with
    | (evs, r) => (Ev.year y :: evs, r)
  else ([Ev.year y], none)

/-- The year loop over the remaining year indices. -/
def runYears (env : ScrapeEnv) : List Nat → List Ev × Option Abort
  | [] => ([], none)
  | y :: ys =>
      match runYear env y with
      | (evs, some r) => (evs, some r)
      | (evs, none) =>
          match runYears env ys with
          | (evs2, r2) => (evs ++ evs2, r2)

/-- scrape_soil_data (get_raw_data.py lines 151-312): the WebDriver setup
aborts the process on failure; an empty year enumeration aborts the run; the
four nested loops then run until done or until an unguarded wait raises into
the outer handler.  The result is the trace of reached options and attempted
extractions, with the reason the run ended early, if any. -/
def scrape_soil_data (env : ScrapeEnv) : List Ev × Option Abort :=
  if env.setupOk then
    if env.nYears = 0 then ([], some Abort.noYears)
    else runYears env (List.range env.nYears)
  else ([], some Abort.setup)

-- ============================================================
-- Shared helper lemmas
-- ============================================================

/-- Mapping after filtering is a sublist of mapping the whole list. -/
theorem filter_map_sublist {α β : Type} (f : α → β) (q : α → Bool)
    (l : List α) :
    List.Sublist ((l.filter q).map f) (l.map f) := by
  induction l with
  | nil => exact List.Sublist.refl _
  | cons a t ih =>
      simp only [List.filter_cons, List.map_cons]
      cases h : q a
      · simpa using List.Sublist.cons (f a) ih
      · simpa using List.Sublist.cons₂ (f a) ih

/-- A forever-stale dropdown read never returns, whatever the fuel and the
attempt index. -/
theorem dropdown_allStale_none :
    ∀ fuel k,
      get_dropdown_options (fun _ => DropdownAttempt.staleEx) fuel k = none := by
  intro fuel
  induction fuel with
  | zero => intro k; rfl
  | succ n ih => intro k; exact ih (k + 1)

/-- A forever-stale selection never returns, whatever the fuel and the
attempt index. -/
theorem select_allStale_none :
    ∀ fuel k,
      select_dropdown_option (fun _ => SelectAttempt.staleEx) fuel k = none := by
  intro fuel
  induction fuel with
  | zero => intro k; rfl
  | succ n ih => intro k; exact ih (k + 1)

/-- After a stale prefix of length n starting at attempt k, the dropdown
read returns at the first non-stale attempt. -/
theorem dropdown_run_of_staleRun (oracle : Nat → DropdownAttempt) :
    ∀ n k, (∀ i, i < n → oracle (k + i) = DropdownAttempt.staleEx) →
      oracle (k + n) ≠ DropdownAttempt.staleEx →
      (get_dropdown_options oracle (n + 1) k).isSome = true := by
  intro n
  induction n with
  | zero =>
      intro k _ hnz
      simp only [get_dropdown_options]
      cases h : oracle k with
      | staleEx => exact absurd h (by simpa using hnz)
      | notFound => rfl
      | found opts => rfl
  | succ m ih =>
      intro k hpre hnz
      have h0 : oracle k = DropdownAttempt.staleEx := by
        simpa using hpre 0 (Nat.succ_pos m)
      simp only [get_dropdown_options, h0]
      refine ih (k + 1) (fun i hi => ?_) ?_
      · have := hpre (i + 1) (Nat.succ_lt_succ hi)
        simpa [Nat.add_assoc, Nat.add_comm 1 i] using this
      · have : k + 1 + m = k + (m + 1) := by omega
        rw [this]
        exact hnz

/-- After a stale prefix of length n starting at attempt k, the selection
returns at the first non-stale attempt. -/
theorem select_run_of_staleRun (oracle : Nat → SelectAttempt) :
    ∀ n k, (∀ i, i < n → oracle (k + i) = SelectAttempt.staleEx) →
      oracle (k + n) ≠ SelectAttempt.staleEx →
      (select_dropdown_option oracle (n + 1) k).isSome = true := by
  intro n
  induction n with
  | zero =>
      intro k _ hnz
      simp only [select_dropdown_option]
      cases h : oracle k with
      | staleEx => exact absurd h (by simpa using hnz)
      | failSel => rfl
      | okSel => rfl
  | succ m ih =>
      intro k hpre hnz
      have h0 : oracle k = SelectAttempt.staleEx := by
        simpa using hpre 0 (Nat.succ_pos m)
      simp only [select_dropdown_option, h0]
      refine ih (k + 1) (fun i hi => ?_) ?_
      · have := hpre (i + 1) (Nat.succ_lt_succ hi)
        simpa [Nat.add_assoc, Nat.add_comm 1 i] using this
      · have : k + 1 + m = k + (m + 1) := by omega
        rw [this]
        exact hnz

-- ============================================================
-- Claim C7
-- ============================================================

/-- Claim C7: get_table_data distinguishes absence from emptiness — it
returns None exactly when the container never becomes visible within the
wait or extraction fails, and a present table with zero data rows yields an
empty record set (zero rows), not None. -/
theorem c7_extract_none_iff_absent (f : TableFetch) :
    (get_table_data f = none ↔
      f = TableFetch.absent ∨ f = TableFetch.failure) ∧
    (∀ header : List String,
      get_table_data (TableFetch.present header []) =
        some ⟨header, []⟩ ∧ (⟨header, []⟩ : DataFrame).rows = []) := by
  constructor
  · cases f <;> simp [get_table_data]
  · intro header
    exact ⟨rfl, rfl⟩

-- ============================================================
-- Claim C8
-- ============================================================

/-- Claim C8: the dropdown option filter returns no option with value "0",
value "select", or label "Select", and the surviving options keep their
original order as (value, label) pairs — the result is an order-preserving
sublist of the mapped originals. -/
theorem c8_filter_excludes_placeholders (opts : List RawOption) :
    (∀ p ∈ filterOptions opts,
        p.1 ≠ "0" ∧ p.1 ≠ "select" ∧ p.2 ≠ "Select") ∧
    List.Sublist (filterOptions opts)
      (opts.map (fun o => (o.value, pyStrip o.text))) := by
  constructor
  · intro p hp
    unfold filterOptions at hp
    obtain ⟨o, ho, hpo⟩ := List.mem_map.mp hp
    have hfo := List.of_mem_filter ho
    simp only [decide_eq_true_eq] at hfo
    subst hpo
    exact hfo
  · exact filter_map_sublist _ _ opts

/-- Witness for claim C8 at a concrete option list. -/
theorem c8_filter_excludes_placeholders_witness :
    ("12", "Alpha").1 ≠ "0" ∧ ("12", "Alpha").1 ≠ "select" ∧
      ("12", "Alpha").2 ≠ "Select" :=
  (c8_filter_excludes_placeholders
    [⟨"0", "Select"⟩, ⟨"12", " Alpha "⟩, ⟨"select", "x"⟩]).1
    ("12", "Alpha") (by decide)

-- ============================================================
-- Claim C3
-- ============================================================

/-- Claim C3 is false as stated: the staleness retry of get_dropdown_options
and select_dropdown_option is an unbounded recursion, so on a control that
stays stale forever neither operation ever terminates — there is no bound
after which a result or failure is returned. -/
theorem c3_counterexample :
    ¬ DropdownTerminates (fun _ => DropdownAttempt.staleEx) ∧
    ¬ SelectTerminates (fun _ => SelectAttempt.staleEx) := by
  constructor
  · rintro ⟨fuel, h⟩
    rw [dropdown_allStale_none fuel 0] at h
    simp at h
  · rintro ⟨fuel, h⟩
    rw [select_allStale_none fuel 0] at h
    simp at h

/-- Claim C3 amended: on a transiently stale control the whole operation is
retried after a short fixed delay without any bound; each operation
terminates exactly when some attempt is non-stale, returning at the first
non-stale attempt — after a stale prefix of length n, fuel n+1 suffices for
both listOptions and select. -/
theorem c3_retry_terminates_after_stale_prefix
    (dOracle : Nat → DropdownAttempt) (sOracle : Nat → SelectAttempt)
    (n m : Nat)
    (hd : ∀ i, i < n → dOracle i = DropdownAttempt.staleEx)
    (hdn : dOracle n ≠ DropdownAttempt.staleEx)
    (hs : ∀ i, i < m → sOracle i = SelectAttempt.staleEx)
    (hsm : sOracle m ≠ SelectAttempt.staleEx) :
    (get_dropdown_options dOracle (n + 1) 0).isSome = true ∧
    (select_dropdown_option sOracle (m + 1) 0).isSome = true := by
  constructor
  · exact dropdown_run_of_staleRun dOracle n 0
      (fun i hi => by simpa using hd i hi) (by simpa using hdn)
  · exact select_run_of_staleRun sOracle m 0
      (fun i hi => by simpa using hs i hi) (by simpa using hsm)

/-- Witness for the amended claim C3: two attempts stale, the third
non-stale; both operations return within three attempts. -/
theorem c3_retry_terminates_after_stale_prefix_witness :
    (get_dropdown_options
      (fun i => if i < 2 then DropdownAttempt.staleEx
                else DropdownAttempt.notFound) 3 0).isSome = true ∧
    (select_dropdown_option
      (fun i => if i < 2 then SelectAttempt.staleEx
                else SelectAttempt.okSel) 3 0).isSome = true :=
  c3_retry_terminates_after_stale_prefix
    (fun i => if i < 2 then DropdownAttempt.staleEx else DropdownAttempt.notFound)
    (fun i => if i < 2 then SelectAttempt.staleEx else SelectAttempt.okSel)
    2 2 (by decide) (by decide) (by decide) (by decide)

-- ============================================================
-- Claim C5
-- ============================================================

/-- Claim C5 is false as stated: the consolidator's identifier columns are
rebuilt by replacing underscores of the path-safe directory name with
spaces, which does not recover an original name that itself contains an
underscore or a non-alphanumeric, non-space character.  A state named A_B
is stored as A_B and reloaded as A B; a state named Dadra & Nagar comes
back as Dadra   Nagar. -/
theorem c5_counterexample :
    unsanitizeName (sanitizeName "A_B") ≠ "A_B" ∧
    unsanitizeName (sanitizeName "A_B") = "A B" ∧
    unsanitizeName (sanitizeName "Dadra & Nagar") = "Dadra   Nagar" := by
  refine ⟨by decide, by decide, by decide⟩

/-- Claim C5 amended: the state and district identifier columns hold the
path-safe directory name with every underscore replaced by a space (the
block column likewise, from the filename, stripped; the year column holds
the year directory name verbatim).  This equals the original human-readable
name exactly when the original consists of alphanumeric characters and
spaces only. -/
theorem c5_roundtrip_for_alnum_space (s : String)
    (h : ∀ c ∈ s.data, c.isAlphanum = true ∨ c = ' ') :
    unsanitizeName (sanitizeName s) = s := by
  unfold sanitizeName unsanitizeName
  cases s with
  | mk l =>
      simp only [List.map_map]
      congr 1
      induction l with
      | nil => rfl
      | cons c t ih =>
          have hc := h c (List.mem_cons_self c t)
          have ht : ∀ c ∈ t, c.isAlphanum = true ∨ c = ' ' :=
            fun x hx => h x (List.mem_cons_of_mem c hx)
          simp only [List.map_cons, ih ht, List.cons.injEq, and_true]
          rcases hc with hc | hc
          · have hne : c ≠ '_' := by
              intro hcu
              rw [hcu] at hc
              exact absurd hc (by decide)
            simp [Function.comp, hc, hne]
          · subst hc
            simp [Function.comp]

/-- Witness for the amended claim C5 on an alphanumeric-and-space name. -/
theorem c5_roundtrip_for_alnum_space_witness :
    unsanitizeName (sanitizeName "West Bengal") = "West Bengal" :=
  c5_roundtrip_for_alnum_space "West Bengal" (by decide)

-- ============================================================
-- Claim C9
-- ============================================================

/-- Claim C9 is false as stated: the sink writes cells as bare text and the
reload re-infers their types, so a string cell whose text looks numeric is
reloaded as a number, and an empty-string cell is reloaded as missing.
Persisting a table with the string cell "7" yields a table with the number
7 — not an equivalent record set. -/
theorem c9_counterexample :
    load_csv (save_data ⟨["Village"], [[Cell.str "7"]]⟩) =
      some ⟨["Village"], [[Cell.num 7]]⟩ ∧
    (⟨["Village"], [[Cell.num 7]]⟩ : DataFrame) ≠
      ⟨["Village"], [[Cell.str "7"]]⟩ := by
  refine ⟨by decide, by decide⟩

/-- Claim C9 amended: persisting a table and reloading it yields the same
record set — identical columns in order, row values and row order —
provided every cell's rendered text reads back as the same cell.  That
condition holds for missing cells, for integer cells, and for every string
cell whose text is non-empty, is not an NA token, and does not parse as a
number; it fails exactly for the re-inferred cells of the counterexample. -/
theorem c9_roundtrip_of_stable_cells (df : DataFrame)
    (h : ∀ r ∈ df.rows, ∀ c ∈ r, inferCell (renderCell c) = c) :
    load_csv (save_data df) = some df := by
  have row_id : ∀ r : List Cell, (∀ c ∈ r, inferCell (renderCell c) = c) →
      (r.map renderCell).map inferCell = r := by
    intro r
    induction r with
    | nil => intro _; rfl
    | cons c cr ihc =>
        intro hr
        simp only [List.map_cons, List.cons.injEq]
        exact ⟨hr c (List.mem_cons_self c cr),
          ihc (fun x hx => hr x (List.mem_cons_of_mem c hx))⟩
  obtain ⟨cs, rs⟩ := df
  simp only [save_data, load_csv, Option.some.injEq, DataFrame.mk.injEq,
    true_and]
  simp only at h
  induction rs with
  | nil => rfl
  | cons r t ih =>
      simp only [List.map_cons, List.cons.injEq]
      exact ⟨row_id r (h r (List.mem_cons_self r t)),
        ih (fun r2 hr2 => h r2 (List.mem_cons_of_mem r hr2))⟩

/-- Witness for the amended claim C9 at a concrete table of a missing cell,
an integer cell and a stable string cell. -/
theorem c9_roundtrip_of_stable_cells_witness :
    load_csv (save_data
      ⟨["Village", "N"], [[Cell.str "Anekal", Cell.num 12],
                          [Cell.nan, Cell.num (-3)]]⟩) =
      some ⟨["Village", "N"], [[Cell.str "Anekal", Cell.num 12],
                               [Cell.nan, Cell.num (-3)]]⟩ :=
  c9_roundtrip_of_stable_cells
    ⟨["Village", "N"], [[Cell.str "Anekal", Cell.num 12],
                        [Cell.nan, Cell.num (-3)]]⟩ (by decide)

-- ============================================================
-- Claim C2
-- ============================================================

/-- A district directory holding the macro and micro files of two blocks,
as the crawler writes them. -/
def c2Files : List RawFile :=
  [⟨"BlockA_macro.csv", [["Village", "N"], ["V1", "1"]]⟩,
   ⟨"BlockA_micro.csv", [["Village", "Zn"], ["V1", "9"]]⟩,
   ⟨"BlockB_macro.csv", [["Village", "N"], ["V2", "2"]]⟩,
   ⟨"BlockB_micro.csv", [["Village", "Zn"], ["V2", "8"]]⟩]

/-- A raw store with one year, one state and one district directory holding
the files of two blocks. -/
def c2Store : RawStore :=
  [⟨"2023-24", [⟨"Karnataka", [⟨"Bengaluru", c2Files⟩]⟩]⟩]

/-- Claim C2 describes the intended behaviour, but the code keeps a single
macro slot and a single micro slot per district directory: each matching
file overwrites the slot, so only the last-listed macro file and the
last-listed micro file survive the scan, and a district directory holding
the files of two blocks contributes one merged result — BlockB's — while
BlockA's data is silently dropped. -/
theorem c2_consolidator_drops_all_but_last_block :
    ((scanFiles c2Files).1.map (fun f => f.name)) = some "BlockB_macro.csv" ∧
    ((scanFiles c2Files).2.1.map (fun f => f.name)) = some "BlockB_micro.csv" ∧
    (scanFiles c2Files).2.2 = "BlockB" ∧
    (collectFrames c2Store).length = 1 ∧
    (collectFrames c2Store).map (fun df => df.rows.length) = [1] := by
  refine ⟨by decide, by decide, by decide, by decide, by decide⟩

-- ============================================================
-- Claim C10
-- ============================================================

/-- No cell of the frame is missing. -/
def noNulls (df : DataFrame) : Bool :=
  df.rows.all (fun r => r.all (fun c => decide (c ≠ Cell.nan)))

/-- After the missing-value pass no cell is missing: missing cells were
replaced by 0 or Unknown and the others kept. -/
theorem fillMissing_no_nan (df : DataFrame) :
    ∀ r ∈ (fillMissing df).rows, ∀ c ∈ r, c ≠ Cell.nan := by
  intro r hr c hc
  simp only [fillMissing, List.mem_map] at hr
  obtain ⟨r0, _, rfl⟩ := hr
  simp only [List.mem_map, List.mem_range] at hc
  obtain ⟨i, _, rfl⟩ := hc
  cases hcell : cellAt r0 i with
  | nan =>
      simp only [hcell]
      split <;> simp
  | num n => simp [hcell]
  | str s => simp [hcell]

/-- The missing-value pass yields rows of the frame's width. -/
theorem fillMissing_row_len (df : DataFrame) :
    ∀ r ∈ (fillMissing df).rows, r.length = df.cols.length := by
  intro r hr
  simp only [fillMissing, List.mem_map] at hr
  obtain ⟨r0, _, rfl⟩ := hr
  simp

/-- Column standardization keeps the number of columns. -/
theorem stdColumns_length :
    ∀ (l seen : List String), (stdColumns seen l).length = l.length := by
  intro l
  induction l with
  | nil => intro seen; rfl
  | cons c cs ih => intro seen; simp [stdColumns, ih]

/-- The dtype pass keeps every cell non-missing when the input frame is
rectangular with no missing cell: identifier columns keep their cells, and
every other cell is coerced with missing results filled by 0. -/
theorem coercePass_no_nan (df : DataFrame)
    (hl : ∀ r ∈ df.rows, r.length = df.cols.length)
    (hn : ∀ r ∈ df.rows, ∀ c ∈ r, c ≠ Cell.nan) :
    ∀ r ∈ (coercePass df).rows, ∀ c ∈ r, c ≠ Cell.nan := by
  intro r hr c hc
  simp only [coercePass, List.mem_map] at hr
  obtain ⟨r0, hr0, rfl⟩ := hr
  simp only [List.mem_map, List.mem_range] at hc
  obtain ⟨i, hi, rfl⟩ := hc
  by_cases hid : id_cols.contains ((df.cols.get? i).getD "")
  · simp only [hid, if_true]
    have hlen : i < r0.length := by rw [hl r0 hr0]; exact hi
    have hx : r0.get? i = some (r0.get ⟨i, hlen⟩) := List.get?_eq_get hlen
    unfold cellAt
    rw [hx, Option.getD_some]
    exact hn r0 hr0 _ (List.get_mem r0 i hlen)
  · simp only [hid, if_false]
    cases hco : coerceCell (cellAt r0 i) <;> simp [hco]

/-- Claim C10: every cell of the consolidated output is non-missing — the
missing-value pass fills numeric columns with 0 and other columns with
Unknown, and the dtype pass refills any missing value introduced by numeric
coercion with 0, so no null survives to the written dataset. -/
theorem c10_output_has_no_nulls (store : RawStore) (df : DataFrame)
    (h : consolidate_data store = some df) : noNulls df = true := by
  have hiff : ∀ d : DataFrame,
      (∀ r ∈ d.rows, ∀ c ∈ r, c ≠ Cell.nan) → noNulls d = true := by
    intro d hd
    simp only [noNulls, List.all_eq_true, decide_eq_true_eq]
    exact hd
  by_cases hframes : (collectFrames store).isEmpty
  · simp [consolidate_data, hframes] at h
  · have hframes2 : (collectFrames store).isEmpty = false := by
      simpa using hframes
    simp only [consolidate_data, hframes2, Bool.false_eq_true, if_false,
      Option.some.injEq] at h
    subst h
    refine hiff _ ?_
    refine coercePass_no_nan _ ?_ ?_
    · intro r hr
      have hr2 : r ∈ (fillMissing (concatAll (collectFrames store))).rows := hr
      have := fillMissing_row_len (concatAll (collectFrames store)) r hr2
      simpa [renamePass, stdColumns_length] using this
    · intro r hr
      exact fillMissing_no_nan (concatAll (collectFrames store)) r hr

/-- A one-district raw store with a missing cell and a non-numeric cell. -/
def c10Store : RawStore :=
  [⟨"2023", [⟨"Karnataka", [⟨"Bengaluru",
    [⟨"Anekal_macro.csv", [["Village", "N", "pH"], ["V1", "", "abc"]]⟩]⟩]⟩]⟩]

/-- Witness for claim C10 at the concrete store: the pipeline's output frame
is computed and has no missing cell. -/
theorem c10_output_has_no_nulls_witness :
    noNulls ⟨["village", "n", "ph", "year", "state", "district", "block"],
             [[Cell.str "V1", Cell.num 0, Cell.num 0, Cell.str "2023",
               Cell.str "Karnataka", Cell.str "Bengaluru",
               Cell.str "Anekal"]]⟩ = true :=
  c10_output_has_no_nulls c10Store
    ⟨["village", "n", "ph", "year", "state", "district", "block"],
     [[Cell.str "V1", Cell.num 0, Cell.num 0, Cell.str "2023",
       Cell.str "Karnataka", Cell.str "Bengaluru", Cell.str "Anekal"]]⟩
    (by decide)

-- ============================================================
-- Traversal-engine lemmas
-- ============================================================

/-- The Ev.block event of every listed block index is in the block-loop
trace, whatever the leaf outcomes. -/
theorem block_ev_mem_runBlocks (env : ScrapeEnv) (y s d : Nat) :
    ∀ bs b, b ∈ bs → Ev.block y s d b ∈ runBlocks env y s d bs := by
  intro bs
  induction bs with
  | nil => intro b hb; cases hb
  | cons b0 rest ih =>
      intro b hb
      rcases List.mem_cons.mp hb with hb | hb
      · subst hb
        exact List.mem_append_left _ (List.mem_cons_self _ _)
      · exact List.mem_append_right _ (ih b hb)

/-- With every district selection and block wait succeeding, the district
loop runs to completion and its trace is the concatenation of the district
traces. -/
theorem runDistricts_good (env : ScrapeEnv) (y s : Nat)
    (hsel : ∀ d, env.distSel y s d = true)
    (hw : ∀ d, env.blockWait y s d = true) :
    ∀ ds, runDistricts env y s ds =
      (ds.flatMap (fun d => Ev.district y s d ::
        runBlocks env y s d (List.range (env.nBlocks y s d))), none) := by
  intro ds
  induction ds with
  | nil => rfl
  | cons d rest ih =>
      simp only [runDistricts, runDistrict, hsel d, hw d, if_true, ih,
        List.flatMap_cons, List.cons_append]

/-- With every selection and wait succeeding, the state loop runs to
completion. -/
theorem runStates_good (env : ScrapeEnv) (y : Nat)
    (hss : ∀ s, env.stateSel y s = true)
    (hdw : ∀ s, env.distWait y s = true)
    (hds : ∀ s d, env.distSel y s d = true)
    (hbw : ∀ s d, env.blockWait y s d = true) :
    ∀ ss, runStates env y ss =
      (ss.flatMap (fun s => Ev.state y s ::
        (List.range (env.nDists y s)).flatMap (fun d => Ev.district y s d ::
          runBlocks env y s d (List.range (env.nBlocks y s d)))), none) := by
  intro ss
  induction ss with
  | nil => rfl
  | cons s rest ih =>
      simp only [runStates, runState, hss s, hdw s, if_true,
        runDistricts_good env y s (hds s) (hbw s), ih,
        List.flatMap_cons, List.cons_append]

/-- With every selection and wait succeeding, the year loop runs to
completion. -/
theorem runYears_good (env : ScrapeEnv)
    (hys : ∀ y, env.yearSel y = true)
    (hss : ∀ y s, env.stateSel y s = true)
    (hdw : ∀ y s, env.distWait y s = true)
    (hds : ∀ y s d, env.distSel y s d = true)
    (hbw : ∀ y s d, env.blockWait y s d = true) :
    ∀ ys, runYears env ys =
      (ys.flatMap (fun y => Ev.year y ::
        (List.range (env.nStates y)).flatMap (fun s => Ev.state y s ::
          (List.range (env.nDists y s)).flatMap (fun d => Ev.district y s d ::
            runBlocks env y s d (List.range (env.nBlocks y s d))))), none) := by
  intro ys
  induction ys with
  | nil => rfl
  | cons y rest ih =>
      simp only [runYears, runYear, hys y, if_true,
        runStates_good env y (hss y) (hdw y) (hds y) (hbw y), ih,
        List.flatMap_cons, List.cons_append]

-- ============================================================
-- Claim C1
-- ============================================================

/-- An environment whose session setup succeeds, with one year and two
states, in which the ddlDistrict clickability wait times out for the first
state and everything else succeeds. -/
def c1Env : ScrapeEnv :=
  ⟨true, 1, fun _ => true, fun _ => 2, fun _ _ => true,
   fun _ s => s ≠ 0, fun _ _ => 1, fun _ _ _ => true,
   fun _ _ _ => true, fun _ _ _ => 1, fun _ _ _ _ => true,
   fun _ _ _ _ => false, fun _ _ _ _ => true, fun _ _ _ _ => true,
   fun _ _ _ _ => true⟩

/-- Claim C1 is false as stated: the ddlDistrict clickability wait after a
state selection (get_raw_data.py lines 197-199) runs outside every per-unit
handler, so its timeout propagates to the outer handler and ends the whole
run.  In c1Env the session is established, years are non-empty, and yet the
run aborts during the first state and the sibling state is never attempted.
-/
theorem c1_counterexample :
    c1Env.setupOk = true ∧ c1Env.nYears = 1 ∧ c1Env.nStates 0 = 2 ∧
    (scrape_soil_data c1Env).2 = some Abort.waitTimeout ∧
    Ev.state 0 1 ∉ (scrape_soil_data c1Env).1 := by
  refine ⟨rfl, rfl, rfl, by decide, by decide⟩

/-- Claim C1 amended: failures confined to one (year, state, district,
block, kind) leaf — a failed block selection, an unhandled exception in the
block body, a missing table-view button, a failed tab activation, an
extraction failure — skip only that unit: whenever the session is
established, the year enumeration is non-empty, and the per-level
selections and the unguarded district/block dropdown waits succeed, the run
is not aborted and every block of the enumeration is attempted, for
arbitrary leaf outcomes.  The run is, however, aborted not only by
session-setup failure or an empty year enumeration but also by a timeout of
either unguarded dropdown wait. -/
theorem c1_leaf_failures_isolated (env : ScrapeEnv)
    (hsetup : env.setupOk = true) (hny : env.nYears ≠ 0)
    (hys : ∀ y, env.yearSel y = true)
    (hss : ∀ y s, env.stateSel y s = true)
    (hdw : ∀ y s, env.distWait y s = true)
    (hds : ∀ y s d, env.distSel y s d = true)
    (hbw : ∀ y s d, env.blockWait y s d = true) :
    (scrape_soil_data env).2 = none ∧
    ∀ y s d b, y < env.nYears → s < env.nStates y → d < env.nDists y s →
      b < env.nBlocks y s d → Ev.block y s d b ∈ (scrape_soil_data env).1 := by
  have hrun : scrape_soil_data env =
      ((List.range env.nYears).flatMap
        (fun y => Ev.year y ::
          (List.range (env.nStates y)).flatMap (fun s => Ev.state y s ::
            (List.range (env.nDists y s)).flatMap (fun d => Ev.district y s d ::
              runBlocks env y s d (List.range (env.nBlocks y s d))))), none) := by
    simp only [scrape_soil_data, hsetup, if_true, hny, if_false,
      runYears_good env hys hss hdw hds hbw]
  constructor
  · rw [hrun]
  · intro y s d b hy hs hd hb
    rw [hrun]
    refine List.mem_flatMap.mpr ⟨y, List.mem_range.mpr hy, ?_⟩
    refine List.mem_cons_of_mem _ ?_
    refine List.mem_flatMap.mpr ⟨s, List.mem_range.mpr hs, ?_⟩
    refine List.mem_cons_of_mem _ ?_
    refine List.mem_flatMap.mpr ⟨d, List.mem_range.mpr hd, ?_⟩
    refine List.mem_cons_of_mem _ ?_
    exact block_ev_mem_runBlocks env y s d _ b (List.mem_range.mpr hb)

/-- An environment with one year, one state, one district and two blocks in
which the first block's body raises an unhandled exception and the second
block's macro table-view button is missing; all selections and waits
succeed. -/
def c1WitEnv : ScrapeEnv :=
  ⟨true, 1, fun _ => true, fun _ => 1, fun _ _ => true,
   fun _ _ => true, fun _ _ => 1, fun _ _ _ => true,
   fun _ _ _ => true, fun _ _ _ => 2, fun _ _ _ _ => true,
   fun _ _ _ b => b = 0, fun _ _ _ b => b ≠ 1, fun _ _ _ _ => true,
   fun _ _ _ _ => true⟩

/-- Witness for the amended claim C1: despite the first block crashing and
the second block's macro button missing, the run does not abort and both
blocks are attempted. -/
theorem c1_leaf_failures_isolated_witness :
    (scrape_soil_data c1WitEnv).2 = none ∧
    Ev.block 0 0 0 0 ∈ (scrape_soil_data c1WitEnv).1 ∧
    Ev.block 0 0 0 1 ∈ (scrape_soil_data c1WitEnv).1 := by
  have h := c1_leaf_failures_isolated c1WitEnv rfl (by decide)
    (fun _ => rfl) (fun _ _ => rfl) (fun _ _ => rfl) (fun _ _ _ => rfl)
    (fun _ _ _ => rfl)
  exact ⟨h.1, h.2 0 0 0 0 (by decide) (by decide) (by decide) (by decide),
    h.2 0 0 0 1 (by decide) (by decide) (by decide) (by decide)⟩

-- ============================================================
-- Claim C4
-- ============================================================

/-- Two environments agreeing on everything that can steer the run's abort
outcome: setup, enumeration sizes down to districts, selections and the
unguarded waits.  Leaf fields (block selection, crashes, tab and view
outcomes) are free. -/
def SameSkeleton (e1 e2 : ScrapeEnv) : Prop :=
  e1.setupOk = e2.setupOk ∧ e1.nYears = e2.nYears ∧ e1.yearSel = e2.yearSel ∧
  e1.nStates = e2.nStates ∧ e1.stateSel = e2.stateSel ∧
  e1.distWait = e2.distWait ∧ e1.nDists = e2.nDists ∧
  e1.distSel = e2.distSel ∧ e1.blockWait = e2.blockWait

/-- The abort component of one district's processing depends only on the
district selection and the block wait. -/
theorem runDistrict_snd (env : ScrapeEnv) (y s d : Nat) :
    (runDistrict env y s d).2 =
      if env.distSel y s d then
        (if env.blockWait y s d then none else some Abort.waitTimeout)
      else none := by
  by_cases h1 : env.distSel y s d <;> by_cases h2 : env.blockWait y s d <;>
    simp [runDistrict, h1, h2]

/-- The abort outcome of the district loop is the same in two environments
with the same skeleton. -/
theorem runDistricts_snd_eq (e1 e2 : ScrapeEnv) (h : SameSkeleton e1 e2)
    (y s : Nat) :
    ∀ ds, (runDistricts e1 y s ds).2 = (runDistricts e2 y s ds).2 := by
  obtain ⟨-, -, -, -, -, hdw, -, hds, hbw⟩ := h
  intro ds
  induction ds with
  | nil => rfl
  | cons d rest ih =>
      have hsnd : (runDistrict e1 y s d).2 = (runDistrict e2 y s d).2 := by
        rw [runDistrict_snd, runDistrict_snd, hds, hbw]
      simp only [runDistricts]
      rcases hv1 : runDistrict e1 y s d with ⟨evs1, r1⟩
      rcases hv2 : runDistrict e2 y s d with ⟨evs2, r2⟩
      have hr : r1 = r2 := by
        have := hsnd
        rw [hv1, hv2] at this
        exact this
      subst hr
      cases r1 with
      | some r => rfl
      | none =>
          rcases hrest1 : runDistricts e1 y s rest with ⟨t1, a1⟩
          rcases hrest2 : runDistricts e2 y s rest with ⟨t2, a2⟩
          have := ih
          rw [hrest1, hrest2] at this
          exact this

/-- The abort outcome of the state loop is the same in two environments
with the same skeleton. -/
theorem runStates_snd_eq (e1 e2 : ScrapeEnv) (h : SameSkeleton e1 e2)
    (y : Nat) :
    ∀ ss, (runStates e1 y ss).2 = (runStates e2 y ss).2 := by
  have hd := h
  obtain ⟨-, -, -, -, hss, hdw, hnd, -, -⟩ := h
  intro ss
  induction ss with
  | nil => rfl
  | cons s rest ih =>
      have hsnd : (runState e1 y s).2 = (runState e2 y s).2 := by
        simp only [runState, hss, hdw]
        by_cases h1 : e2.stateSel y s
        · by_cases h2 : e2.distWait y s
          · simp only [h1, h2, if_true]
            rcases hv1 : runDistricts e1 y s (List.range (e1.nDists y s))
              with ⟨t1, a1⟩
            rcases hv2 : runDistricts e2 y s (List.range (e2.nDists y s))
              with ⟨t2, a2⟩
            have heq := runDistricts_snd_eq e1 e2 hd y s
              (List.range (e2.nDists y s))
            rw [hnd] at hv1
            rw [hv1, hv2] at heq
            simpa using heq
          · simp [h1, h2]
        · simp [h1]
      simp only [runStates]
      rcases hv1 : runState e1 y s with ⟨evs1, r1⟩
      rcases hv2 : runState e2 y s with ⟨evs2, r2⟩
      have hr : r1 = r2 := by
        have := hsnd
        rw [hv1, hv2] at this
        exact this
      subst hr
      cases r1 with
      | some r => rfl
      | none =>
          rcases hrest1 : runStates e1 y rest with ⟨t1, a1⟩
          rcases hrest2 : runStates e2 y rest with ⟨t2, a2⟩
          have := ih
          rw [hrest1, hrest2] at this
          exact this

/-- The abort outcome of the year loop is the same in two environments with
the same skeleton. -/
theorem runYears_snd_eq (e1 e2 : ScrapeEnv) (h : SameSkeleton e1 e2) :
    ∀ ys, (runYears e1 ys).2 = (runYears e2 ys).2 := by
  have hd := h
  obtain ⟨-, -, hys, hns, -, -, -, -, -⟩ := h
  intro ys
  induction ys with
  | nil => rfl
  | cons y rest ih =>
      have hsnd : (runYear e1 y).2 = (runYear e2 y).2 := by
        simp only [runYear, hys]
        by_cases h1 : e2.yearSel y
        · simp only [h1, if_true]
          rcases hv1 : runStates e1 y (List.range (e1.nStates y))
            with ⟨t1, a1⟩
          rcases hv2 : runStates e2 y (List.range (e2.nStates y))
            with ⟨t2, a2⟩
          have heq := runStates_snd_eq e1 e2 hd y (List.range (e2.nStates y))
          rw [hns] at hv1
          rw [hv1, hv2] at heq
          simpa using heq
        · simp [h1]
      simp only [runYears]
      rcases hv1 : runYear e1 y with ⟨evs1, r1⟩
      rcases hv2 : runYear e2 y with ⟨evs2, r2⟩
      have hr : r1 = r2 := by
        have := hsnd
        rw [hv1, hv2] at this
        exact this
      subst hr
      cases r1 with
      | some r => rfl
      | none =>
          rcases hrest1 : runYears e1 rest with ⟨t1, a1⟩
          rcases hrest2 : runYears e2 rest with ⟨t2, a2⟩
          have := ih
          rw [hrest1, hrest2] at this
          exact this

/-- The run's abort outcome is the same in two environments with the same
skeleton: leaf outcomes can never change how, or whether, the run ends
early. -/
theorem scrape_snd_eq (e1 e2 : ScrapeEnv) (h : SameSkeleton e1 e2) :
    (scrape_soil_data e1).2 = (scrape_soil_data e2).2 := by
  have hd := h
  obtain ⟨hsu, hny, -, -, -, -, -, -, -⟩ := h
  simp only [scrape_soil_data, hsu, hny]
  by_cases h1 : e2.setupOk
  · by_cases h2 : e2.nYears = 0
    · simp [h1, h2]
    · simp only [h1, h2, if_true, if_false]
      rcases hv1 : runYears e1 (List.range e2.nYears) with ⟨t1, a1⟩
      rcases hv2 : runYears e2 (List.range e2.nYears) with ⟨t2, a2⟩
      have heq := runYears_snd_eq e1 e2 hd (List.range e2.nYears)
      rw [hv1, hv2] at heq
      simpa using heq
  · simp [h1]

/-- A micro extraction event can only come from a block whose micro tab
click succeeded. -/
theorem microExtract_mem_runBlock (env : ScrapeEnv) (y s d b y2 s2 d2 b2 : Nat)
    (h : Ev.microExtract y s d b ∈ runBlock env y2 s2 d2 b2) :
    env.microTab y s d b = true := by
  simp only [runBlock, List.mem_cons] at h
  rcases h with h | h
  · exact absurd h (by simp)
  · by_cases hbs : env.blockSel y2 s2 d2 b2
    · simp only [hbs, if_true] at h
      by_cases hbc : env.blockCrash y2 s2 d2 b2
      · simp [hbc] at h
      · by_cases hmt : env.microTab y2 s2 d2 b2
        · by_cases hmv2 : env.microView y2 s2 d2 b2
          · by_cases hmv : env.macroView y2 s2 d2 b2
            · simp [hbc, hmt, hmv2, hmv, Ev.microExtract.injEq] at h
              obtain ⟨rfl, rfl, rfl, rfl⟩ := h
              exact hmt
            · simp [hbc, hmt, hmv2, hmv, Ev.microExtract.injEq] at h
              obtain ⟨rfl, rfl, rfl, rfl⟩ := h
              exact hmt
          · by_cases hmv : env.macroView y2 s2 d2 b2 <;>
              simp [hbc, hmt, hmv2, hmv] at h
        · by_cases hmv : env.macroView y2 s2 d2 b2 <;>
            simp [hbc, hmt, hmv] at h
    · simp [hbs] at h

/-- A micro extraction event in the block-loop trace comes from a block
whose micro tab click succeeded. -/
theorem microExtract_mem_runBlocks (env : ScrapeEnv) (y s d b y2 s2 d2 : Nat) :
    ∀ bs, Ev.microExtract y s d b ∈ runBlocks env y2 s2 d2 bs →
      env.microTab y s d b = true := by
  intro bs
  induction bs with
  | nil => intro h; cases h
  | cons b0 rest ih =>
      intro h
      rcases List.mem_append.mp h with h | h
      · exact microExtract_mem_runBlock env y s d b y2 s2 d2 b0 h
      · exact ih h

/-- A micro extraction event in a district's trace comes from a block whose
micro tab click succeeded. -/
theorem microExtract_mem_runDistrict (env : ScrapeEnv) (y s d b y2 s2 d2 : Nat)
    (h : Ev.microExtract y s d b ∈ (runDistrict env y2 s2 d2).1) :
    env.microTab y s d b = true := by
  by_cases h1 : env.distSel y2 s2 d2
  · by_cases h2 : env.blockWait y2 s2 d2
    · simp only [runDistrict, h1, h2, if_true] at h
      rcases List.mem_cons.mp h with h | h
      · exact absurd h (by simp)
      · exact microExtract_mem_runBlocks env y s d b y2 s2 d2 _ h
    · simp only [runDistrict, h1, h2, if_true, if_false] at h
      rcases List.mem_singleton.mp h with h
      exact absurd h (by simp)
  · simp only [runDistrict, h1, if_false] at h
    rcases List.mem_singleton.mp h with h
    exact absurd h (by simp)

/-- A micro extraction event in the district loop's trace comes from a
block whose micro tab click succeeded. -/
theorem microExtract_mem_runDistricts (env : ScrapeEnv) (y s d b y2 s2 : Nat) :
    ∀ ds, Ev.microExtract y s d b ∈ (runDistricts env y2 s2 ds).1 →
      env.microTab y s d b = true := by
  intro ds
  induction ds with
  | nil => intro h; cases h
  | cons d0 rest ih =>
      intro h
      simp only [runDistricts] at h
      rcases hv : runDistrict env y2 s2 d0 with ⟨evs, r⟩
      rw [hv] at h
      cases r with
      | some r0 =>
          simp only at h
          refine microExtract_mem_runDistrict env y s d b y2 s2 d0 ?_
          rw [hv]
          exact h
      | none =>
          rcases hrest : runDistricts env y2 s2 rest with ⟨t2, a2⟩
          rw [hrest] at h
          simp only [List.mem_append] at h
          rcases h with h | h
          · refine microExtract_mem_runDistrict env y s d b y2 s2 d0 ?_
            rw [hv]
            exact h
          · refine ih ?_
            rw [hrest]
            exact h

/-- A micro extraction event in a state's trace comes from a block whose
micro tab click succeeded. -/
theorem microExtract_mem_runState (env : ScrapeEnv) (y s d b y2 s2 : Nat)
    (h : Ev.microExtract y s d b ∈ (runState env y2 s2).1) :
    env.microTab y s d b = true := by
  by_cases h1 : env.stateSel y2 s2
  · by_cases h2 : env.distWait y2 s2
    · simp only [runState, h1, h2, if_true] at h
      rcases hv : runDistricts env y2 s2 (List.range (env.nDists y2 s2))
        with ⟨t, a⟩
      rw [hv] at h
      simp only at h
      rcases List.mem_cons.mp h with h | h
      · exact absurd h (by simp)
      · refine microExtract_mem_runDistricts env y s d b y2 s2
          (List.range (env.nDists y2 s2)) ?_
        rw [hv]
        exact h
    · simp only [runState, h1, h2, if_true, if_false] at h
      rcases List.mem_singleton.mp h with h
      exact absurd h (by simp)
  · simp only [runState, h1, if_false] at h
    rcases List.mem_singleton.mp h with h
    exact absurd h (by simp)

/-- A micro extraction event in the state loop's trace comes from a block
whose micro tab click succeeded. -/
theorem microExtract_mem_runStates (env : ScrapeEnv) (y s d b y2 : Nat) :
    ∀ ss, Ev.microExtract y s d b ∈ (runStates env y2 ss).1 →
      env.microTab y s d b = true := by
  intro ss
  induction ss with
  | nil => intro h; cases h
  | cons s0 rest ih =>
      intro h
      simp only [runStates] at h
      rcases hv : runState env y2 s0 with ⟨evs, r⟩
      rw [hv] at h
      cases r with
      | some r0 =>
          simp only at h
          refine microExtract_mem_runState env y s d b y2 s0 ?_
          rw [hv]
          exact h
      | none =>
          rcases hrest : runStates env y2 rest with ⟨t2, a2⟩
          rw [hrest] at h
          simp only [List.mem_append] at h
          rcases h with h | h
          · refine microExtract_mem_runState env y s d b y2 s0 ?_
            rw [hv]
            exact h
          · refine ih ?_
            rw [hrest]
            exact h

/-- A micro extraction event in a year's trace comes from a block whose
micro tab click succeeded. -/
theorem microExtract_mem_runYear (env : ScrapeEnv) (y s d b y2 : Nat)
    (h : Ev.microExtract y s d b ∈ (runYear env y2).1) :
    env.microTab y s d b = true := by
  by_cases h1 : env.yearSel y2
  · simp only [runYear, h1, if_true] at h
    rcases hv : runStates env y2 (List.range (env.nStates y2)) with ⟨t, a⟩
    rw [hv] at h
    simp only at h
    rcases List.mem_cons.mp h with h | h
    · exact absurd h (by simp)
    · refine microExtract_mem_runStates env y s d b y2
        (List.range (env.nStates y2)) ?_
      rw [hv]
      exact h
  · simp only [runYear, h1, if_false] at h
    rcases List.mem_singleton.mp h with h
    exact absurd h (by simp)

/-- A micro extraction event in the year loop's trace comes from a block
whose micro tab click succeeded. -/
theorem microExtract_mem_runYears (env : ScrapeEnv) (y s d b : Nat) :
    ∀ ys, Ev.microExtract y s d b ∈ (runYears env ys).1 →
      env.microTab y s d b = true := by
  intro ys
  induction ys with
  | nil => intro h; cases h
  | cons y0 rest ih =>
      intro h
      simp only [runYears] at h
      rcases hv : runYear env y0 with ⟨evs, r⟩
      rw [hv] at h
      cases r with
      | some r0 =>
          simp only at h
          refine microExtract_mem_runYear env y s d b y0 ?_
          rw [hv]
          exact h
      | none =>
          rcases hrest : runYears env rest with ⟨t2, a2⟩
          rw [hrest] at h
          simp only [List.mem_append] at h
          rcases h with h | h
          · refine microExtract_mem_runYear env y s d b y0 ?_
            rw [hv]
            exact h
          · refine ih ?_
            rw [hrest]
            exact h

/-- A micro extraction event in the run's trace comes from a block whose
micro tab click succeeded. -/
theorem microExtract_mem_scrape (env : ScrapeEnv) (y s d b : Nat)
    (h : Ev.microExtract y s d b ∈ (scrape_soil_data env).1) :
    env.microTab y s d b = true := by
  by_cases h1 : env.setupOk
  · by_cases h2 : env.nYears = 0
    · simp [scrape_soil_data, h1, h2] at h
    · simp only [scrape_soil_data, h1, h2, if_true, if_false] at h
      exact microExtract_mem_runYears env y s d b (List.range env.nYears) h
  · simp [scrape_soil_data, h1] at h

/-- The same environment with the micro-tab outcomes replaced. -/
def withMicroTab (env : ScrapeEnv) (f : Nat → Nat → Nat → Nat → Bool) :
    ScrapeEnv :=
  ⟨env.setupOk, env.nYears, env.yearSel, env.nStates, env.stateSel,
   env.distWait, env.nDists, env.distSel, env.blockWait, env.nBlocks,
   env.blockSel, env.blockCrash, env.macroView, f, env.microView⟩

/-- An environment with one year, one state, one district and two blocks in
which the first block's micro tab never becomes clickable and everything
else succeeds. -/
def c4Env : ScrapeEnv :=
  ⟨true, 1, fun _ => true, fun _ => 1, fun _ _ => true,
   fun _ _ => true, fun _ _ => 1, fun _ _ _ => true,
   fun _ _ _ => true, fun _ _ _ => 2, fun _ _ _ _ => true,
   fun _ _ _ _ => false, fun _ _ _ _ => true, fun _ _ _ b => b ≠ 0,
   fun _ _ _ _ => true⟩

/-- Claim C4 is false as stated: the micro tab click and the micro
Table View action and extraction sit in one guarded region
(get_raw_data.py lines 262-289), so when the tab click fails the micro
extraction of that block is not attempted — even though its Table View
would have succeeded — while the run continues with the next block. -/
theorem c4_counterexample :
    c4Env.microTab 0 0 0 0 = false ∧ c4Env.microView 0 0 0 0 = true ∧
    Ev.microExtract 0 0 0 0 ∉ (scrape_soil_data c4Env).1 ∧
    Ev.macroExtract 0 0 0 0 ∈ (scrape_soil_data c4Env).1 ∧
    Ev.block 0 0 0 1 ∈ (scrape_soil_data c4Env).1 ∧
    Ev.microExtract 0 0 0 1 ∈ (scrape_soil_data c4Env).1 ∧
    (scrape_soil_data c4Env).2 = none := by
  refine ⟨rfl, rfl, by decide, by decide, by decide, by decide, by decide⟩

/-- Claim C4 amended: when activating the micro-nutrient tab fails for a
block, the failure is non-fatal — the run's abort outcome is exactly what
it would be had every tab click succeeded — but the caller does not proceed
to the micro kind for that block: its table-view action and table
extraction are skipped, with only a diagnostic recorded. -/
theorem c4_tab_failure_skips_micro_but_is_nonfatal (env : ScrapeEnv)
    (y s d b : Nat) (h : env.microTab y s d b = false) :
    Ev.microExtract y s d b ∉ (scrape_soil_data env).1 ∧
    (scrape_soil_data env).2 =
      (scrape_soil_data (withMicroTab env (fun _ _ _ _ => true))).2 := by
  constructor
  · intro hmem
    have := microExtract_mem_scrape env y s d b hmem
    rw [h] at this
    cases this
  · refine scrape_snd_eq env (withMicroTab env (fun _ _ _ _ => true)) ?_
    exact ⟨rfl, rfl, rfl, rfl, rfl, rfl, rfl, rfl, rfl⟩

/-- Witness for the amended claim C4 at the concrete environment: the first
block's micro extraction is skipped yet the abort outcome matches the
all-tabs-succeed run. -/
theorem c4_tab_failure_skips_micro_but_is_nonfatal_witness :
    Ev.microExtract 0 0 0 0 ∉ (scrape_soil_data c4Env).1 ∧
    (scrape_soil_data c4Env).2 =
      (scrape_soil_data (withMicroTab c4Env (fun _ _ _ _ => true))).2 :=
  c4_tab_failure_skips_micro_but_is_nonfatal c4Env 0 0 0 0 rfl

-- ============================================================
-- Merge lemmas (claim C6)
-- ============================================================

/-- Filtering on a property of the image commutes with mapping. -/
theorem map_filter_comp {α β : Type} (f : α → β) (p : β → Bool) :
    ∀ l : List α, (l.filter (fun a => p (f a))).map f = (l.map f).filter p := by
  intro l
  induction l with
  | nil => rfl
  | cons a t ih =>
      simp only [List.filter_cons, List.map_cons]
      cases h : p (f a) <;> simp [h, ih]

/-- A duplicate-free list whose elements are all equal has at most one
element. -/
theorem nodup_const_length_le_one {α : Type} (k : α) :
    ∀ l : List α, l.Nodup → (∀ x ∈ l, x = k) → l.length ≤ 1 := by
  intro l
  match l with
  | [] => intro _ _; simp
  | [a] => intro _ _; simp
  | a :: b :: t =>
      intro hnd hall
      have ha : a = k := hall a (List.mem_cons_self _ _)
      have hb : b = k := hall b (List.mem_cons_of_mem _ (List.mem_cons_self _ _))
      have : a ∉ b :: t := (List.nodup_cons.mp hnd).1
      exact absurd (by rw [ha, hb]; exact List.mem_cons_self _ _) this

/-- The cell of an appended row at an index inside the left part. -/
theorem cellAt_append_left (l1 l2 : List Cell) (i : Nat) (h : i < l1.length) :
    cellAt (l1 ++ l2) i = cellAt l1 i := by
  unfold cellAt
  rw [List.get?_append h]

/-- With duplicate-free keys on the right, at most one right row matches a
given key value. -/
theorem filter_key_len_le_one (rows : List (List Cell)) (kj : Nat) (k : Cell)
    (hnd : (rows.map (fun r => cellAt r kj)).Nodup) :
    (rows.filter (fun r2 => decide (cellAt r2 kj = k))).length ≤ 1 := by
  have hmf := map_filter_comp (fun r => cellAt r kj)
    (fun x => decide (x = k)) rows
  have hsub : List.Sublist
      ((rows.filter (fun r2 => decide (cellAt r2 kj = k))).map
        (fun r => cellAt r kj))
      (rows.map (fun r => cellAt r kj)) := by
    rw [hmf]
    exact List.filter_sublist _
  have hnd2 := hnd.sublist hsub
  have hall : ∀ x ∈ (rows.filter (fun r2 => decide (cellAt r2 kj = k))).map
      (fun r => cellAt r kj), x = k := by
    intro x hx
    obtain ⟨r, hr, rfl⟩ := List.mem_map.mp hx
    have := List.of_mem_filter hr
    simpa using this
  have := nodup_const_length_le_one k _ hnd2 hall
  simpa using this

/-- The key cell of a padded extra right row sits at the key index of the
left columns. -/
theorem cellAt_rangeMap (n i : Nat) (h : i < n) (f : Nat → Cell)
    (tail : List Cell) :
    cellAt ((List.range n).map f ++ tail) i = f i := by
  have hlen : i < ((List.range n).map f).length := by
    simpa using h
  rw [cellAt_append_left _ _ _ hlen]
  unfold cellAt
  rw [List.get?_map, List.get?_range h]
  rfl

/-- Keys of the merge group of one left row: with duplicate-free right keys,
each left row contributes exactly one merged row carrying its own key. -/
theorem merge_group_keys (right : DataFrame) (ki kj : Nat)
    (hnd2 : (right.rows.map (fun r => cellAt r kj)).Nodup)
    (r1 : List Cell) (hlen : ki < r1.length) :
    ((match right.rows.filter (fun r2 => decide (cellAt r2 kj = cellAt r1 ki)) with
      | [] => [r1 ++ List.replicate (right.cols.length - 1) Cell.nan]
      | ms => ms.map (fun r2 => r1 ++ dropIdx r2 kj)).map
        (fun r => cellAt r ki)) = [cellAt r1 ki] := by
  cases hfil : right.rows.filter
      (fun r2 => decide (cellAt r2 kj = cellAt r1 ki)) with
  | nil =>
      simp only [List.map_cons, List.map_nil, List.cons.injEq, and_true]
      exact cellAt_append_left _ _ _ hlen
  | cons r2 rest =>
      have hone := filter_key_len_le_one right.rows kj (cellAt r1 ki) hnd2
      rw [hfil] at hone
      have hrest : rest = [] := by
        cases rest with
        | nil => rfl
        | cons r3 t => simp at hone
      subst hrest
      simp only [List.map_cons, List.map_nil, List.cons.injEq, and_true]
      exact cellAt_append_left _ _ _ hlen

/-- Keys of the left-driven part of the outer merge: one row per left row,
carrying the left keys in order. -/
theorem merge_flatMap_keys (right : DataFrame) (ki kj : Nat)
    (hnd2 : (right.rows.map (fun r => cellAt r kj)).Nodup) :
    ∀ l : List (List Cell), (∀ r ∈ l, ki < r.length) →
      ((l.flatMap (fun r1 =>
        match right.rows.filter
            (fun r2 => decide (cellAt r2 kj = cellAt r1 ki)) with
        | [] => [r1 ++ List.replicate (right.cols.length - 1) Cell.nan]
        | ms => ms.map (fun r2 => r1 ++ dropIdx r2 kj))).map
          (fun r => cellAt r ki)) = l.map (fun r => cellAt r ki) := by
  intro l
  induction l with
  | nil => intro _; rfl
  | cons r1 t ih =>
      intro hl
      simp only [List.flatMap_cons, List.map_append, List.map_cons]
      rw [merge_group_keys right ki kj hnd2 r1 (hl r1 (List.mem_cons_self _ _)),
        ih (fun r hr => hl r (List.mem_cons_of_mem _ hr))]
      rfl

/-- Keys of the unmatched-right part of the outer merge: exactly the right
keys that occur in no left row, in order. -/
theorem merge_extra_keys (left right : DataFrame) (ki kj : Nat)
    (hkil : ki < left.cols.length) :
    ((right.rows.filter (fun r2 =>
        left.rows.all (fun r1 => decide (cellAt r1 ki ≠ cellAt r2 kj)))).map
      (fun r2 => cellAt ((List.range left.cols.length).map
          (fun i => if i = ki then cellAt r2 kj else Cell.nan) ++
        dropIdx r2 kj) ki)) =
    (right.rows.map (fun r => cellAt r kj)).filter
      (fun k => decide (k ∉ left.rows.map (fun r => cellAt r ki))) := by
  have hfn : (fun r2 : List Cell => cellAt ((List.range left.cols.length).map
      (fun i => if i = ki then cellAt r2 kj else Cell.nan) ++
        dropIdx r2 kj) ki) = (fun r2 : List Cell => cellAt r2 kj) := by
    funext r2
    rw [cellAt_rangeMap left.cols.length ki hkil]
    simp
  rw [hfn]
  have hpred : ∀ r2 ∈ right.rows,
      (left.rows.all (fun r1 => decide (cellAt r1 ki ≠ cellAt r2 kj))) =
      decide (cellAt r2 kj ∉ left.rows.map (fun r => cellAt r ki)) := by
    intro r2 _
    by_cases hmem : cellAt r2 kj ∈ left.rows.map (fun r => cellAt r ki)
    · obtain ⟨r1, hr1, he⟩ := List.mem_map.mp hmem
      have hfalse : decide (cellAt r2 kj ∉
          left.rows.map (fun r => cellAt r ki)) = false :=
        decide_eq_false (by simpa using hmem)
      rw [hfalse]
      cases hall : left.rows.all
          (fun r1 => decide (cellAt r1 ki ≠ cellAt r2 kj)) with
      | false => rfl
      | true =>
          have := (List.all_eq_true.mp hall) r1 hr1
          simp [he] at this
    · have htrue : decide (cellAt r2 kj ∉
          left.rows.map (fun r => cellAt r ki)) = true := decide_eq_true hmem
      rw [htrue, List.all_eq_true]
      intro r hr
      simp only [decide_eq_true_eq]
      exact fun he => hmem (List.mem_map.mpr ⟨r, hr, he⟩)
  rw [List.filter_congr hpred]
  exact map_filter_comp (fun r => cellAt r kj)
    (fun k => decide (k ∉ left.rows.map (fun r => cellAt r ki))) right.rows

-- ============================================================
-- Claim C6
-- ============================================================

/-- A macro frame whose key column holds a duplicated village value. -/
def c6DupMacro : DataFrame :=
  ⟨["Village", "N"], [[Cell.str "V1", Cell.num 1], [Cell.str "V1", Cell.num 2]]⟩

/-- A micro frame with that village value. -/
def c6DupMicro : DataFrame :=
  ⟨["Gram Panchayath", "Zn"], [[Cell.str "V1", Cell.num 9]]⟩

/-- Claim C6 is false as stated: when a key value is duplicated, the outer
join multiplies the matches — here the merge of a two-row macro frame and a
one-row micro frame sharing the single key value V1 yields two rows for a
one-element union of key values. -/
theorem c6_counterexample :
    (mergeBlock true c6DupMacro c6DupMicro).rows.length = 2 ∧
    ((mergeBlock true c6DupMacro c6DupMicro).rows.map
      (fun r => cellAt r 0)).dedup.length = 1 := by
  refine ⟨by decide, by decide⟩

/-- Claim C6 amended: for non-empty macro and micro frames that both expose
a village/gram column, the consolidator renames the first such column of
each to the common key and outer-joins on it; provided the key values are
unique within each frame (and the frames rectangular), the join produces
one row per element of the union of the key values — the macro keys in
order followed by the micro keys matched by no macro row — with unmatched
macro rows padded by missing micro cells and unmatched micro rows padded by
missing macro cells except for their key, and with the _macro/_micro
suffixes of mergedCols disambiguating overlapping non-key columns; when the
join itself fails the result is the side-by-side concatenation of the two
renamed frames.  With duplicated keys the row count exceeds the union, as
the counterexample shows. -/
theorem c6_outer_join_unique_keys
    (dfMacro dfMicro : DataFrame) (cm cu : String) (ki kj : Nat)
    (hm : findCommonCol dfMacro.cols = some cm)
    (hu : findCommonCol dfMicro.cols = some cu)
    (_hne1 : dfMacro.rows ≠ []) (_hne2 : dfMicro.rows ≠ [])
    (hki : colIdx (renameCol dfMacro cm mergeKey) mergeKey = some ki)
    (hkj : colIdx (renameCol dfMicro cu mergeKey) mergeKey = some kj)
    (hkil : ki < dfMacro.cols.length)
    (hwl : ∀ r ∈ dfMacro.rows, r.length = dfMacro.cols.length)
    (hnd1 : (dfMacro.rows.map (fun r => cellAt r ki)).Nodup)
    (hnd2 : (dfMicro.rows.map (fun r => cellAt r kj)).Nodup) :
    mergeBlock true dfMacro dfMicro =
      ⟨mergedCols (renameCol dfMacro cm mergeKey)
        (renameCol dfMicro cu mergeKey),
       mergedRows (renameCol dfMacro cm mergeKey)
        (renameCol dfMicro cu mergeKey) ki kj⟩ ∧
    (mergeBlock true dfMacro dfMicro).rows.map (fun r => cellAt r ki) =
      dfMacro.rows.map (fun r => cellAt r ki) ++
      (dfMicro.rows.map (fun r => cellAt r kj)).filter
        (fun k => decide (k ∉ dfMacro.rows.map (fun r => cellAt r ki))) ∧
    ((mergeBlock true dfMacro dfMicro).rows.map (fun r => cellAt r ki)).Nodup ∧
    (∀ r1 ∈ dfMacro.rows, (∀ r2 ∈ dfMicro.rows, cellAt r2 kj ≠ cellAt r1 ki) →
      r1 ++ List.replicate (dfMicro.cols.length - 1) Cell.nan ∈
        (mergeBlock true dfMacro dfMicro).rows) ∧
    (∀ r2 ∈ dfMicro.rows, (∀ r1 ∈ dfMacro.rows, cellAt r1 ki ≠ cellAt r2 kj) →
      (List.range dfMacro.cols.length).map
          (fun i => if i = ki then cellAt r2 kj else Cell.nan) ++
        dropIdx r2 kj ∈ (mergeBlock true dfMacro dfMicro).rows) ∧
    mergeBlock false dfMacro dfMicro =
      concatCols (renameCol dfMacro cm mergeKey)
        (renameCol dfMicro cu mergeKey) := by
  have hA : mergeBlock true dfMacro dfMicro =
      ⟨mergedCols (renameCol dfMacro cm mergeKey)
        (renameCol dfMicro cu mergeKey),
       mergedRows (renameCol dfMacro cm mergeKey)
        (renameCol dfMicro cu mergeKey) ki kj⟩ := by
    simp only [mergeBlock, hm, hu, if_true, outerMerge, hki, hkj]
  have hlr : (renameCol dfMicro cu mergeKey).cols.length =
      dfMicro.cols.length := by
    simp [renameCol]
  have hll : (renameCol dfMacro cm mergeKey).cols.length =
      dfMacro.cols.length := by
    simp [renameCol]
  have hkil2 : ki < (renameCol dfMacro cm mergeKey).cols.length := by
    rw [hll]
    exact hkil
  have hlen : ∀ r ∈ (renameCol dfMacro cm mergeKey).rows, ki < r.length := by
    intro r hr
    have : r.length = dfMacro.cols.length := hwl r hr
    rw [this]
    exact hkil
  have hB : (mergeBlock true dfMacro dfMicro).rows.map (fun r => cellAt r ki) =
      dfMacro.rows.map (fun r => cellAt r ki) ++
      (dfMicro.rows.map (fun r => cellAt r kj)).filter
        (fun k => decide (k ∉ dfMacro.rows.map (fun r => cellAt r ki))) := by
    rw [hA]
    show (mergedRows (renameCol dfMacro cm mergeKey)
        (renameCol dfMicro cu mergeKey) ki kj).map (fun r => cellAt r ki) = _
    unfold mergedRows
    rw [List.map_append]
    rw [merge_flatMap_keys (renameCol dfMicro cu mergeKey) ki kj hnd2
      (renameCol dfMacro cm mergeKey).rows hlen]
    rw [List.map_map]
    have hext := merge_extra_keys (renameCol dfMacro cm mergeKey)
      (renameCol dfMicro cu mergeKey) ki kj hkil2
    simp only [Function.comp_def]
    rw [hext]
    rfl
  refine ⟨hA, hB, ?_, ?_, ?_, ?_⟩
  · rw [hB]
    refine List.Nodup.append hnd1 (hnd2.filter _) ?_
    intro a ha hb
    have := (List.mem_filter.mp hb).2
    simp only [decide_eq_true_eq] at this
    exact this ha
  · intro r1 hr1 hcond
    rw [hA]
    show _ ∈ mergedRows _ _ ki kj
    unfold mergedRows
    refine List.mem_append_left _ ?_
    refine List.mem_flatMap.mpr ⟨r1, hr1, ?_⟩
    have hfil : (renameCol dfMicro cu mergeKey).rows.filter
        (fun r2 => decide (cellAt r2 kj = cellAt r1 ki)) = [] := by
      rw [List.filter_eq_nil]
      intro r2 hr2
      simp only [decide_eq_true_eq]
      exact hcond r2 hr2
    rw [hfil, hlr]
    exact List.mem_singleton.mpr rfl
  · intro r2 hr2 hcond
    rw [hA]
    show _ ∈ mergedRows _ _ ki kj
    unfold mergedRows
    refine List.mem_append_right _ ?_
    refine List.mem_map.mpr ⟨r2, ?_, by rw [hll]⟩
    refine List.mem_filter.mpr ⟨hr2, ?_⟩
    rw [List.all_eq_true]
    intro r1 hr1
    simp only [decide_eq_true_eq]
    exact hcond r1 hr1
  · simp only [mergeBlock, hm, hu, Bool.false_eq_true, if_false]

/-- A macro frame with unique keys for the witness. -/
def c6Macro : DataFrame :=
  ⟨["Village", "N"], [[Cell.str "V1", Cell.num 1], [Cell.str "V3", Cell.num 3]]⟩

/-- A micro frame with unique keys for the witness. -/
def c6Micro : DataFrame :=
  ⟨["Gram Panchayath", "Zn"], [[Cell.str "V1", Cell.num 9],
                               [Cell.str "V2", Cell.num 8]]⟩

/-- Witness for the amended claim C6: with unique keys V1, V3 on the macro
side and V1, V2 on the micro side the merged keys are exactly V1, V3, V2 —
one row per element of the union. -/
theorem c6_outer_join_unique_keys_witness :
    (mergeBlock true c6Macro c6Micro).rows.map (fun r => cellAt r 0) =
      [Cell.str "V1", Cell.str "V3", Cell.str "V2"] := by
  have h := c6_outer_join_unique_keys c6Macro c6Micro
    "Village" "Gram Panchayath" 0 0 (by decide) (by decide) (by decide)
    (by decide) (by decide) (by decide) (by decide)
    (by intro r hr; fin_cases hr <;> rfl) (by decide) (by decide)
  exact h.2.1.trans (by decide)
